import Mathlib

/-!
Shallow embedding of the CarePlan admission service (Django app `app/`):
the duplicate/conflict validation engine (`app/duplicate_detection.py`),
the validation-result accumulator and error codes (`app/exceptions.py`),
the POST admission view with its rate limiter (`app/views.py`), and the
asynchronous generation worker (`app/tasks.py`).

Conventions of the embedding:
* Django querysets over the relational store become explicit lists inside a
  `DB` record; `.filter(...).first()` becomes `List.find?`, `.exists()`
  becomes `List.any`.
* `date.today()` and the parsed request date are passed as explicit `DateD`
  parameters (the clock is an input of the model).
* Python's case-insensitive comparisons (`.lower()`, `__iexact`) are
  modelled with ASCII lowercasing `String.map Char.toLower`.
* The external generation call (`get_gemini_response`) is a parameter
  `gen : String → Option String`; `some t` is a returned text, `none` is a
  raised exception.
* The Redis/Django cache used by the rate limiter is reduced to the two
  counters read by `check_rate_limit` (current-minute and current-day key),
  and a cache write is recorded as a value together with its expiry.
-/

namespace CarePlanSpec

/-- Calendar date, as stored by a Django `DateField` (and as the date part
of a `DateTimeField` compared by `created_at__date=`). -/
structure DateD where
  year : Nat
  month : Nat
  day : Nat
deriving DecidableEq, Repr

/-- Python `str.lower()` / Django `__iexact`, restricted to ASCII case:
lowercase every character of the string (written over the character list
so that it reduces inside the kernel). -/
def strLower (s : String) : String := String.mk (s.data.map Char.toLower)

/-- The `Provider` model (`app/models.py`): unique `npi`. `id` is the
database primary key. -/
structure Provider where
  id : Nat
  name : String
  npi : String
deriving DecidableEq, Repr

/-- The `Patient` model (`app/models.py`): unique `mrn`. -/
structure Patient where
  id : Nat
  first_name : String
  last_name : String
  mrn : String
  date_of_birth : DateD
deriving DecidableEq, Repr

/-- The `Order` model (`app/models.py`): foreign key to `Patient` by pk,
`created_at` kept as its calendar date (the only part the code compares). -/
structure Order where
  patient_id : Nat
  medication_name : String
  created_at : DateD
deriving DecidableEq, Repr

/-- The relational store visible to the duplicate checks. -/
structure DB where
  providers : List Provider
  patients : List Patient
  orders : List Order
deriving Repr

/-- Finding severity (`ValidationItem.level`, `"error"` / `"warning"`). -/
inductive Level where
  | error
  | warning
deriving DecidableEq, Repr

/-- One validation problem (`ValidationItem` in `app/exceptions.py`). -/
structure ValidationItem where
  level : Level
  code : String
  message : String
deriving DecidableEq, Repr

/-- The accumulator returned by the duplicate checks
(`ValidationResult` in `app/exceptions.py`). -/
structure ValidationResult where
  items : List ValidationItem := []
  reusable_provider : Option Provider := none
  reusable_patient : Option Patient := none
deriving DecidableEq, Repr

/- `ErrorCodes` constants from `app/exceptions.py`. -/
namespace ErrorCodes

def DUPLICATE_NPI_MISMATCH : String := "DUPLICATE_NPI_MISMATCH"

def PATIENT_INFO_MISMATCH : String := "PATIENT_INFO_MISMATCH"

def POTENTIAL_DUPLICATE_PATIENT : String := "POTENTIAL_DUPLICATE_PATIENT"

def DUPLICATE_ORDER_SAME_DAY : String := "DUPLICATE_ORDER_SAME_DAY"

def EXISTING_MEDICATION_ORDER : String := "EXISTING_MEDICATION_ORDER"

def RATE_LIMIT : String := "RATE_LIMIT"

def INTERNAL_ERROR : String := "INTERNAL_ERROR"

end ErrorCodes

/-- `ValidationResult.add_error`. -/
def ValidationResult.add_error (r : ValidationResult) (code message : String) :
    ValidationResult :=
  { r with items := r.items ++ [⟨Level.error, code, message⟩] }

/-- `ValidationResult.add_warning`. -/
def ValidationResult.add_warning (r : ValidationResult) (code message : String) :
    ValidationResult :=
  { r with items := r.items ++ [⟨Level.warning, code, message⟩] }

/-- `ValidationResult.has_errors`. -/
def ValidationResult.has_errors (r : ValidationResult) : Bool :=
  r.items.any (fun i => i.level == Level.error)

/-- `ValidationResult.has_warnings`. -/
def ValidationResult.has_warnings (r : ValidationResult) : Bool :=
  r.items.any (fun i => i.level == Level.warning)

/-- `ValidationResult.is_clean` (`len(self.items) == 0`). -/
def ValidationResult.is_clean (r : ValidationResult) : Bool :=
  r.items.isEmpty

/-- The `warnings` list of `ValidationResult.to_response_dict` (each entry
keeps code and message; we keep the full items). -/
def ValidationResult.warnings (r : ValidationResult) : List ValidationItem :=
  r.items.filter (fun i => i.level == Level.warning)

/-- `Provider.objects.filter(npi=npi).first()`. -/
def findProviderByNpi (db : DB) (npi : String) : Option Provider :=
  db.providers.find? (fun p => p.npi == npi)

/-- `_check_provider` from `app/duplicate_detection.py`. -/
def check_provider (result : ValidationResult) (db : DB) (npi name : String) :
    ValidationResult :=
  match findProviderByNpi db npi with
  | none => result
  | some existing =>
    if strLower existing.name == strLower name then
      { result with reusable_provider := some existing }
    else
      result.add_error ErrorCodes.DUPLICATE_NPI_MISMATCH
        "该 NPI 已被其他医疗提供者使用，请核实后重新输入"

/-- `Patient.objects.filter(mrn=mrn).first()`. -/
def findPatientByMrn (db : DB) (mrn : String) : Option Patient :=
  db.patients.find? (fun p => p.mrn == mrn)

/-- `Patient.objects.filter(first_name__iexact & last_name__iexact &
date_of_birth=dob).first()`. -/
def findPatientByNameDob (db : DB) (first_name last_name : String)
    (dob : DateD) : Option Patient :=
  db.patients.find? (fun p =>
    strLower p.first_name == strLower first_name &&
    strLower p.last_name == strLower last_name &&
    p.date_of_birth == dob)

/-- `_check_patient` from `app/duplicate_detection.py`. -/
def check_patient (result : ValidationResult) (db : DB)
    (mrn first_name last_name : String) (dob : DateD) : ValidationResult :=
  match findPatientByMrn db mrn with
  | some existing =>
    let name_matches :=
      strLower existing.first_name == strLower first_name &&
      strLower existing.last_name == strLower last_name
    let dob_matches := existing.date_of_birth == dob
    if name_matches && dob_matches then
      { result with reusable_patient := some existing }
    else
      let r := result.add_warning ErrorCodes.PATIENT_INFO_MISMATCH
        "该病历号已存在，但患者信息不一致。请确认患者身份后继续。"
      { r with reusable_patient := some existing }
  | none =>
    match findPatientByNameDob db first_name last_name dob with
    | some _ =>
      result.add_warning ErrorCodes.POTENTIAL_DUPLICATE_PATIENT
        "系统中已存在同名同生日的患者，请确认是否为同一人。"
    | none => result

/-- `Order.objects.filter(patient=patient, medication_name__iexact=...,
created_at__date=today).first()`. -/
def findSameDayOrder (db : DB) (patient : Patient) (medication_name : String)
    (today : DateD) : Option Order :=
  db.orders.find? (fun o =>
    o.patient_id == patient.id &&
    strLower o.medication_name == strLower medication_name &&
    o.created_at == today)

/-- `Order.objects.filter(patient=patient,
medication_name__iexact=...).exists()`. -/
def hasPreviousOrder (db : DB) (patient : Patient) (medication_name : String) :
    Bool :=
  db.orders.any (fun o =>
    o.patient_id == patient.id &&
    strLower o.medication_name == strLower medication_name)

/-- `_check_order` from `app/duplicate_detection.py`. -/
def check_order (result : ValidationResult) (db : DB) (today : DateD)
    (patient : Patient) (medication_name : String) (confirm : Bool) :
    ValidationResult :=
  match findSameDayOrder db patient medication_name today with
  | some _ =>
    result.add_error ErrorCodes.DUPLICATE_ORDER_SAME_DAY
      "今天已为该患者创建过相同药物的订单，请勿重复提交。"
  | none =>
    if confirm then
      result
    else if hasPreviousOrder db patient medication_name then
      result.add_warning ErrorCodes.EXISTING_MEDICATION_ORDER
        "该患者之前已有此药物的订单记录。如需继续，请确认后重新提交。"
    else
      result

/-- `check_all_duplicates` from `app/duplicate_detection.py`: provider check,
then patient check, then the order check only when a reusable patient was
resolved. `today` is `date.today()` at evaluation time. -/
def check_all_duplicates (db : DB) (today : DateD)
    (npi provider_name mrn first_name last_name : String) (date_of_birth : DateD)
    (medication_name : String) (confirm : Bool) : ValidationResult :=
  let result : ValidationResult := {}
  let result := check_provider result db npi provider_name
  let result := check_patient result db mrn first_name last_name date_of_birth
  match result.reusable_patient with
  | some patient => check_order result db today patient medication_name confirm
  | none => result

/-- The two cache counters read by `check_rate_limit` in `app/views.py`:
the value under the current-minute key and under the current-day key
(`cache.get(key, 0)`). -/
structure RateState where
  minute_count : Nat
  day_count : Nat
deriving DecidableEq, Repr

/-- One `cache.set(key, value, timeout=...)` call: the stored value and its
expiry in seconds. -/
structure CacheWrite where
  value : Nat
  timeout : Nat
deriving DecidableEq, Repr

/-- Outcome of `check_rate_limit`: either a `RateLimitException` with its
message, or admission together with the two cache writes performed. -/
inductive RateDecision where
  | rejected (message : String)
  | admitted (minute_write day_write : CacheWrite)
deriving DecidableEq, Repr

/-- `check_rate_limit` from `app/views.py`: reject when the minute counter
is at 15 or the day counter at 1500; otherwise write both counters
incremented, with 60-second and 86400-second expiry. -/
def check_rate_limit (st : RateState) : RateDecision :=
  if st.minute_count ≥ 15 then
    RateDecision.rejected "请求过于频繁，请稍等片刻再试"
  else if st.day_count ≥ 1500 then
    RateDecision.rejected "今日请求配额已用完，请明天再试"
  else
    RateDecision.admitted ⟨st.minute_count + 1, 60⟩ ⟨st.day_count + 1, 86400⟩

/-- The POST form fields read by `index` in `app/views.py`.
`patient_dob_raw` is the submitted string; `patient_dob` is the result of
`datetime.strptime(patient_dob_raw, '%Y-%m-%d').date()`, with `none`
standing for the raised `ValueError`. `confirm_raw` is the raw `confirm`
field, compared against `'true'` by the view. -/
structure Request where
  referring_provider_npi : String
  referring_provider : String
  patient_mrn : String
  patient_first_name : String
  patient_last_name : String
  patient_dob_raw : String
  patient_dob : Option DateD
  medication_name : String
  patient_primary_diagnosis : String
  additional_diagnosis : String
  medication_history : String
  clinical_notes : String
  confirm_raw : String
deriving Repr

/-- The `CarePlan` model row (`app/models.py`): `status` is a free-form
`CharField` defaulting to `'pending'`; `patient_dob` is stored as the raw
submitted string by the view. -/
structure CarePlanRec where
  id : Nat
  patient_first_name : String
  patient_last_name : String
  patient_dob : String
  patient_mrn : String
  referring_provider : String
  referring_provider_npi : String
  medication_name : String
  patient_primary_diagnosis : String
  additional_diagnosis : String
  medication_history : String
  clinical_notes : String
  status : String
  generated_plan : String
deriving DecidableEq, Repr

/-- `CarePlan.objects.create(...)` as performed by `index` (step 5):
status defaults to `'pending'`, `generated_plan` to the blank string. -/
def newCareplan (id : Nat) (req : Request) : CarePlanRec :=
  { id := id
    patient_first_name := req.patient_first_name
    patient_last_name := req.patient_last_name
    patient_dob := req.patient_dob_raw
    patient_mrn := req.patient_mrn
    referring_provider := req.referring_provider
    referring_provider_npi := req.referring_provider_npi
    medication_name := req.medication_name
    patient_primary_diagnosis := req.patient_primary_diagnosis
    additional_diagnosis := req.additional_diagnosis
    medication_history := req.medication_history
    clinical_notes := req.clinical_notes
    status := "pending"
    generated_plan := "" }

/-- Server-side state touched by the POST handler: the entity store, the
`CarePlan` table, the next primary key, the rate counters, and the id queue
fed to the worker (`generate_care_plan_task.delay`). -/
structure ServerState where
  db : DB
  careplans : List CarePlanRec
  next_id : Nat
  rate : RateState
  queue : List Nat
deriving Repr

/-- Observable outcome of a POST to `index`: HTTP 429
(`RateLimitException`), HTTP 422 (`ValidationException` carrying the full
`ValidationResult`), the HTTP 200 `requires_confirmation` response carrying
the warnings, or the HTTP 200 success response with the new careplan id. -/
inductive PostOutcome where
  | rateLimited (message : String)
  | validationFailure (result : ValidationResult)
  | requiresConfirmation (warnings : List ValidationItem)
  | success (careplan_id : Nat)
deriving DecidableEq, Repr

/-- The `ValidationResult` built by `index` when `strptime` raises on the
submitted date of birth. -/
def dobFormatError : ValidationResult :=
  ValidationResult.add_error {} ErrorCodes.INTERNAL_ERROR
    "出生日期格式错误，请使用 YYYY-MM-DD 格式"

/-- The POST branch of `index` from `app/views.py`: rate limit, date
parse, duplicate evaluation, error/warning gating, careplan creation and
job enqueue. `today` is `date.today()` during the duplicate evaluation. -/
def postIndex (st : ServerState) (today : DateD) (req : Request) :
    PostOutcome × ServerState :=
  match check_rate_limit st.rate with
  | RateDecision.rejected msg => (PostOutcome.rateLimited msg, st)
  | RateDecision.admitted mw dw =>
    let st1 := { st with rate := ⟨mw.value, dw.value⟩ }
    match req.patient_dob with
    | none => (PostOutcome.validationFailure dobFormatError, st1)
    | some dob =>
      let validation := check_all_duplicates st1.db today
        req.referring_provider_npi req.referring_provider req.patient_mrn
        req.patient_first_name req.patient_last_name dob req.medication_name
        (req.confirm_raw == "true")
      if validation.has_errors then
        (PostOutcome.validationFailure validation, st1)
      else if validation.has_warnings then
        (PostOutcome.requiresConfirmation validation.warnings, st1)
      else
        let cp := newCareplan st1.next_id req
        (PostOutcome.success cp.id,
          { st1 with
              careplans := st1.careplans ++ [cp]
              next_id := st1.next_id + 1
              queue := st1.queue ++ [cp.id] })

/-- `CarePlan.objects.get(id=careplan_id)`; `none` is `DoesNotExist`. -/
def findCareplan (cps : List CarePlanRec) (id : Nat) : Option CarePlanRec :=
  cps.find? (fun c => c.id == id)

/-- `care_plan.save()`: replace the row with the same primary key. -/
def saveCareplan (cps : List CarePlanRec) (cp : CarePlanRec) :
    List CarePlanRec :=
  cps.map (fun c => if c.id == cp.id then cp else c)

/-- The prompt f-string built by `generate_care_plan_task` (step 3). -/
def build_prompt (cp : CarePlanRec) : String :=
  "Generate a comprehensive Specialty Pharmacy Care Plan for:\n\nPatient: "
    ++ cp.patient_first_name ++ " " ++ cp.patient_last_name
    ++ "\nDOB: " ++ cp.patient_dob
    ++ "\nMRN: " ++ cp.patient_mrn
    ++ "\nMedication: " ++ cp.medication_name
    ++ "\nPrimary Diagnosis (ICD-10): " ++ cp.patient_primary_diagnosis
    ++ "\nAdditional Diagnoses: " ++ cp.additional_diagnosis
    ++ "\nMedication History: " ++ cp.medication_history
    ++ "\nClinical Notes: " ++ cp.clinical_notes
    ++ "\n\nPlease include (simply and concisely):\n"
    ++ "1. Problem List / Drug Therapy Problems (DTPs)\n"
    ++ "2. SMART Goals\n"
    ++ "3. Pharmacist Interventions/Plan\n"
    ++ "4. Monitoring Plan & Lab Schedule\n"

/-- What one delivery of the Celery task returns: the success dict, the
not-found dict, or a re-raised exception handed back to Celery for retry. -/
inductive TaskResult where
  | success (careplan_id content_length : Nat)
  | notFound (careplan_id : Nat)
  | raised
deriving DecidableEq, Repr

/-- One delivery of `generate_care_plan_task` from `app/tasks.py`.
`gen` is the external `get_gemini_response` call (`some t` a returned
text, `none` a raised exception); `retries` is `self.request.retries` and
`max_retries` the Celery retry ceiling (3). The task fetches the row,
unconditionally sets it to `processing`, calls the generator, and on
success stores content with status `completed`; on failure it sets
`failed` only once retries are exhausted and re-raises. -/
def generate_care_plan_task (gen : String → Option String)
    (retries max_retries : Nat) (cps : List CarePlanRec) (careplan_id : Nat) :
    TaskResult × List CarePlanRec :=
  match findCareplan cps careplan_id with
  | none => (TaskResult.notFound careplan_id, cps)
  | some care_plan =>
    let cp1 := { care_plan with status := "processing" }
    let cps1 := saveCareplan cps cp1
    match gen (build_prompt cp1) with
    | some generated_plan =>
      let cp2 := { cp1 with
        generated_plan := generated_plan
        status := "completed" }
      (TaskResult.success careplan_id generated_plan.length, saveCareplan cps1 cp2)
    | none =>
      if retries ≥ max_retries then
        match findCareplan cps1 careplan_id with
        | some cp2 => (TaskResult.raised, saveCareplan cps1 { cp2 with status := "failed" })
        | none => (TaskResult.raised, cps1)
      else
        (TaskResult.raised, cps1)

/-- The one item `_check_provider` can emit. -/
def npiMismatchItem : ValidationItem :=
  ⟨Level.error, ErrorCodes.DUPLICATE_NPI_MISMATCH,
    "该 NPI 已被其他医疗提供者使用，请核实后重新输入"⟩

/-- The item `_check_patient` emits on an mrn match with differing info. -/
def patientMismatchItem : ValidationItem :=
  ⟨Level.warning, ErrorCodes.PATIENT_INFO_MISMATCH,
    "该病历号已存在，但患者信息不一致。请确认患者身份后继续。"⟩

/-- The item `_check_patient` emits on a name+dob match under another mrn. -/
def potentialDupItem : ValidationItem :=
  ⟨Level.warning, ErrorCodes.POTENTIAL_DUPLICATE_PATIENT,
    "系统中已存在同名同生日的患者，请确认是否为同一人。"⟩

/-- The item `_check_order` emits on a same-day duplicate order. -/
def sameDayItem : ValidationItem :=
  ⟨Level.error, ErrorCodes.DUPLICATE_ORDER_SAME_DAY,
    "今天已为该患者创建过相同药物的订单，请勿重复提交。"⟩

/-- The item `_check_order` emits on a prior-day order without confirm. -/
def prevOrderItem : ValidationItem :=
  ⟨Level.warning, ErrorCodes.EXISTING_MEDICATION_ORDER,
    "该患者之前已有此药物的订单记录。如需继续，请确认后重新提交。"⟩

/-- Findings the provider check appends. -/
def providerFindings (db : DB) (npi name : String) : List ValidationItem :=
  match findProviderByNpi db npi with
  | none => []
  | some existing =>
    if strLower existing.name == strLower name then [] else [npiMismatchItem]

/-- The reusable provider the provider check resolves. -/
def providerReuse (db : DB) (npi name : String) : Option Provider :=
  match findProviderByNpi db npi with
  | none => none
  | some existing =>
    if strLower existing.name == strLower name then some existing else none

/-- Findings the patient check appends. -/
def patientFindings (db : DB) (mrn first_name last_name : String)
    (dob : DateD) : List ValidationItem :=
  match findPatientByMrn db mrn with
  | some existing =>
    if (strLower existing.first_name == strLower first_name &&
        strLower existing.last_name == strLower last_name) &&
        existing.date_of_birth == dob then [] else [patientMismatchItem]
  | none =>
    match findPatientByNameDob db first_name last_name dob with
    | some _ => [potentialDupItem]
    | none => []

/-- Findings the order check appends. -/
def orderFindings (db : DB) (today : DateD) (patient : Patient)
    (medication_name : String) (confirm : Bool) : List ValidationItem :=
  match findSameDayOrder db patient medication_name today with
  | some _ => [sameDayItem]
  | none =>
    if confirm then []
    else if hasPreviousOrder db patient medication_name then [prevOrderItem]
    else []

/-- All findings one evaluation collects, in order. -/
def evalFindings (db : DB) (today : DateD)
    (npi provider_name mrn first_name last_name : String) (date_of_birth : DateD)
    (medication_name : String) (confirm : Bool) : List ValidationItem :=
  providerFindings db npi provider_name ++
    patientFindings db mrn first_name last_name date_of_birth ++
    (match findPatientByMrn db mrn with
     | some p => orderFindings db today p medication_name confirm
     | none => [])

/-- The complete message vocabulary of the duplicate checks: the five
string constants hard-coded in `app/duplicate_detection.py`. -/
def fixedMessages : List String :=
  ["该 NPI 已被其他医疗提供者使用，请核实后重新输入",
   "该病历号已存在，但患者信息不一致。请确认患者身份后继续。",
   "系统中已存在同名同生日的患者，请确认是否为同一人。",
   "今天已为该患者创建过相同药物的订单，请勿重复提交。",
   "该患者之前已有此药物的订单记录。如需继续，请确认后重新提交。"]

/-- Store fixture: exactly one patient, John Smith, mrn 123456,
born 1985-03-15. -/
def dbJohn : DB := ⟨[], [⟨1, "John", "Smith", "123456", ⟨1985, 3, 15⟩⟩], []⟩

/-- Request fixture submitting mrn 123456 with first name Jane (an
mrn match with mismatching info), with a chosen raw confirm field. -/
def reqJane (confirm_raw : String) : Request :=
  { referring_provider_npi := "1234567890"
    referring_provider := "Dr. Smith"
    patient_mrn := "123456"
    patient_first_name := "Jane"
    patient_last_name := "Smith"
    patient_dob_raw := "1985-03-15"
    patient_dob := some ⟨1985, 3, 15⟩
    medication_name := "Ozempic"
    patient_primary_diagnosis := "E11"
    additional_diagnosis := ""
    medication_history := ""
    clinical_notes := ""
    confirm_raw := confirm_raw }

/-- Server-state fixture over `dbJohn` with fresh rate counters. -/
def stJane : ServerState :=
  { db := dbJohn, careplans := [], next_id := 0, rate := ⟨0, 0⟩, queue := [] }

/-- Request fixture with a brand-new provider, patient and medication. -/
def reqFresh : Request :=
  { referring_provider_npi := "1234567890"
    referring_provider := "Dr. Smith"
    patient_mrn := "999999"
    patient_first_name := "John"
    patient_last_name := "Smith"
    patient_dob_raw := "1985-03-15"
    patient_dob := some ⟨1985, 3, 15⟩
    medication_name := "Ozempic"
    patient_primary_diagnosis := "E11"
    additional_diagnosis := ""
    medication_history := ""
    clinical_notes := ""
    confirm_raw := "false" }

/-- Request fixture whose date of birth does not parse as YYYY-MM-DD. -/
def reqBadDob : Request :=
  { reqFresh with patient_dob_raw := "03/15/1985", patient_dob := none }

/-- Server-state fixture with an empty store and fresh counters. -/
def stEmpty : ServerState :=
  { db := ⟨[], [], []⟩, careplans := [], next_id := 0, rate := ⟨0, 0⟩,
    queue := [] }

/-- Server-state fixture whose minute counter sits at the ceiling. -/
def stRateLimited : ServerState :=
  { db := ⟨[], [], []⟩, careplans := [], next_id := 0, rate := ⟨15, 0⟩,
    queue := [] }

/-- Store fixture: John Smith plus one historical (prior-day) Ozempic
order for him. -/
def dbOrderHist : DB :=
  ⟨[], [⟨1, "John", "Smith", "123456", ⟨1985, 3, 15⟩⟩],
    [⟨1, "Ozempic", ⟨2026, 10, 11⟩⟩]⟩

/-- Server-state fixture over `dbOrderHist` with fresh rate counters. -/
def stOrderHist : ServerState :=
  { db := dbOrderHist, careplans := [], next_id := 0, rate := ⟨0, 0⟩,
    queue := [] }

/-- Request fixture fully matching the stored John Smith, confirm=true. -/
def reqJohnConfirm : Request :=
  { reqFresh with patient_mrn := "123456", confirm_raw := "true" }

/-- `CarePlan` row fixture already in the terminal `completed` state. -/
def cpCompleted : CarePlanRec :=
  { id := 1
    patient_first_name := "John"
    patient_last_name := "Smith"
    patient_dob := "1985-03-15"
    patient_mrn := "123456"
    referring_provider := "Dr. Smith"
    referring_provider_npi := "1234567890"
    medication_name := "Ozempic"
    patient_primary_diagnosis := "E11"
    additional_diagnosis := ""
    medication_history := ""
    clinical_notes := ""
    status := "completed"
    generated_plan := "OLD CONTENT" }

lemma check_provider_eq (r : ValidationResult) (db : DB) (npi name : String) :
    check_provider r db npi name =
      { r with
          items := r.items ++ providerFindings db npi name
          reusable_provider := (providerReuse db npi name).or r.reusable_provider } := by
  unfold check_provider providerFindings providerReuse ValidationResult.add_error
  cases h : findProviderByNpi db npi with
  | none => simp [Option.or]
  | some existing =>
    by_cases hn : strLower existing.name == strLower name <;>
      simp [hn, Option.or, npiMismatchItem]



lemma check_patient_eq (r : ValidationResult) (db : DB)
    (mrn first_name last_name : String) (dob : DateD) :
    check_patient r db mrn first_name last_name dob =
      { r with
          items := r.items ++ patientFindings db mrn first_name last_name dob
          reusable_patient := (findPatientByMrn db mrn).or r.reusable_patient } := by
  unfold check_patient patientFindings ValidationResult.add_warning
  cases h : findPatientByMrn db mrn with
  | some existing =>
    by_cases hm : (strLower existing.first_name == strLower first_name &&
        strLower existing.last_name == strLower last_name) &&
        existing.date_of_birth == dob <;>
      simp [hm, Option.or, patientMismatchItem]
  | none =>
    cases h2 : findPatientByNameDob db first_name last_name dob <;>
      simp [Option.or, potentialDupItem]



lemma check_order_eq (r : ValidationResult) (db : DB) (today : DateD)
    (patient : Patient) (medication_name : String) (confirm : Bool) :
    check_order r db today patient medication_name confirm =
      { r with
          items := r.items ++ orderFindings db today patient medication_name confirm } := by
  unfold check_order orderFindings ValidationResult.add_error
    ValidationResult.add_warning
  cases h : findSameDayOrder db patient medication_name today with
  | some o => simp [sameDayItem]
  | none =>
    by_cases hc : confirm
    · simp [hc]
    · by_cases hp : hasPreviousOrder db patient medication_name <;>
        simp [hc, hp, prevOrderItem]



lemma check_all_duplicates_eq (db : DB) (today : DateD)
    (npi provider_name mrn first_name last_name : String) (date_of_birth : DateD)
    (medication_name : String) (confirm : Bool) :
    check_all_duplicates db today npi provider_name mrn first_name last_name
        date_of_birth medication_name confirm =
      { items := evalFindings db today npi provider_name mrn first_name
          last_name date_of_birth medication_name confirm
        reusable_provider := providerReuse db npi provider_name
        reusable_patient := findPatientByMrn db mrn } := by
  unfold check_all_duplicates evalFindings
  simp only [check_provider_eq, check_patient_eq, check_order_eq,
    Option.or_none, List.nil_append]
  cases h : findPatientByMrn db mrn with
  | some p => simp [List.append_assoc]
  | none => simp

lemma providerFindings_mem (db : DB) (npi name : String) :
    ∀ i ∈ providerFindings db npi name, i = npiMismatchItem := by
  unfold providerFindings
  cases h : findProviderByNpi db npi with
  | none => simp
  | some existing =>
    by_cases hn : strLower existing.name == strLower name <;> simp [hn]

lemma patientFindings_mem (db : DB) (mrn first_name last_name : String)
    (dob : DateD) :
    ∀ i ∈ patientFindings db mrn first_name last_name dob,
      i = patientMismatchItem ∨ i = potentialDupItem := by
  unfold patientFindings
  cases h : findPatientByMrn db mrn with
  | some existing =>
    by_cases hm : (strLower existing.first_name == strLower first_name &&
        strLower existing.last_name == strLower last_name) &&
        existing.date_of_birth == dob <;> simp [hm]
  | none =>
    cases h2 : findPatientByNameDob db first_name last_name dob <;> simp

lemma orderFindings_mem (db : DB) (today : DateD) (patient : Patient)
    (medication_name : String) (confirm : Bool) :
    ∀ i ∈ orderFindings db today patient medication_name confirm,
      i = sameDayItem ∨ i = prevOrderItem := by
  unfold orderFindings
  cases h : findSameDayOrder db patient medication_name today with
  | some o => simp
  | none =>
    by_cases hc : confirm
    · simp [hc]
    · by_cases hp : hasPreviousOrder db patient medication_name <;> simp [hc, hp]

lemma providerFindings_cases (db : DB) (npi name : String) :
    providerFindings db npi name = [] ∨
      providerFindings db npi name = [npiMismatchItem] := by
  unfold providerFindings
  cases h : findProviderByNpi db npi with
  | none => left; rfl
  | some existing =>
    by_cases hn : strLower existing.name == strLower name <;> simp [hn]

lemma patientFindings_cases (db : DB) (mrn first_name last_name : String)
    (dob : DateD) :
    patientFindings db mrn first_name last_name dob = [] ∨
      patientFindings db mrn first_name last_name dob = [patientMismatchItem] ∨
      patientFindings db mrn first_name last_name dob = [potentialDupItem] := by
  unfold patientFindings
  cases h : findPatientByMrn db mrn with
  | some existing =>
    by_cases hm : (strLower existing.first_name == strLower first_name &&
        strLower existing.last_name == strLower last_name) &&
        existing.date_of_birth == dob <;> simp [hm]
  | none =>
    cases h2 : findPatientByNameDob db first_name last_name dob <;> simp

lemma orderFindings_of_sameDay (db : DB) (today : DateD) (patient : Patient)
    (medication_name : String) (confirm : Bool) (o : Order)
    (h : findSameDayOrder db patient medication_name today = some o) :
    orderFindings db today patient medication_name confirm = [sameDayItem] := by
  unfold orderFindings
  rw [h]

lemma orderFindings_of_confirm (db : DB) (today : DateD) (patient : Patient)
    (medication_name : String)
    (h : findSameDayOrder db patient medication_name today = none) :
    orderFindings db today patient medication_name true = [] := by
  unfold orderFindings
  rw [h]
  simp

lemma filter_orderFindings_eq_nil (db : DB) (today : DateD) (patient : Patient)
    (medication_name : String) (confirm : Bool) (p : ValidationItem → Bool)
    (hs : p sameDayItem = false) (hp : p prevOrderItem = false) :
    (orderFindings db today patient medication_name confirm).filter p = [] := by
  rw [List.filter_eq_nil_iff]
  intro a ha
  rcases orderFindings_mem db today patient medication_name confirm a ha with
    h | h <;> simp [h, hs, hp]

lemma is_clean_no_findings (r : ValidationResult) (h : r.is_clean = true) :
    r.has_errors = false ∧ r.has_warnings = false := by
  unfold ValidationResult.is_clean at h
  rw [List.isEmpty_iff] at h
  unfold ValidationResult.has_errors ValidationResult.has_warnings
  simp [h]

lemma newCareplan_id (id : Nat) (req : Request) : (newCareplan id req).id = id :=
  rfl

/-- Evaluation of the POST handler when the rate limiter admits and the
date of birth parses: the duplicate evaluation gates the three outcomes. -/
lemma postIndex_admitted (st : ServerState) (today : DateD) (req : Request)
    (dob : DateD)
    (hmin : st.rate.minute_count < 15) (hday : st.rate.day_count < 1500)
    (hdob : req.patient_dob = some dob) :
    postIndex st today req =
      (let st1 : ServerState :=
        { st with rate := ⟨st.rate.minute_count + 1, st.rate.day_count + 1⟩ }
       let validation := check_all_duplicates st.db today
         req.referring_provider_npi req.referring_provider req.patient_mrn
         req.patient_first_name req.patient_last_name dob req.medication_name
         (req.confirm_raw == "true")
       if validation.has_errors then
         (PostOutcome.validationFailure validation, st1)
       else if validation.has_warnings then
         (PostOutcome.requiresConfirmation validation.warnings, st1)
       else
         (PostOutcome.success st.next_id,
           { st1 with
               careplans := st.careplans ++ [newCareplan st.next_id req]
               next_id := st.next_id + 1
               queue := st.queue ++ [st.next_id] })) := by
  have h1 : ¬ (st.rate.minute_count ≥ 15) := by omega
  have h2 : ¬ (st.rate.day_count ≥ 1500) := by omega
  unfold postIndex check_rate_limit
  simp only [if_neg h1, if_neg h2, hdob, newCareplan_id]

/-- C1: the generation worker does NOT treat redelivery of a terminal job
id as a no-op. Delivering the id of a `completed` CarePlan job makes
`generate_care_plan_task` unconditionally set the row back to `processing`
(here: a failing generation attempt with retries remaining leaves it
there), and with a succeeding generation it overwrites the stored content.
This exhibits the failing input for the claimed terminal-state
invariant. -/
theorem c1_terminal_redelivery_reprocesses :
    cpCompleted.status = "completed" ∧
    (generate_care_plan_task (fun _ => none) 0 3 [cpCompleted] 1).2 =
      [{ cpCompleted with status := "processing" }] ∧
    (generate_care_plan_task (fun _ => some "NEW CONTENT") 0 3 [cpCompleted] 1).2 =
      [{ cpCompleted with status := "completed", generated_plan := "NEW CONTENT" }] := by
  decide

/-- C7 counterexample: with exactly Patient(mrn 123456, John Smith,
1985-03-15) stored, submitting mrn 654321 with the same name and birth
date (confirm false) yields a single finding whose code is
`POTENTIAL_DUPLICATE_PATIENT` — not the claimed
`DUPLICATE_PATIENT_SUSPECTED`, a code that does not exist in the code
base. -/
theorem c7_counterexample :
    ((check_all_duplicates dbJohn ⟨2026, 10, 12⟩ "1234567890" "Dr. Smith"
        "654321" "John" "Smith" ⟨1985, 3, 15⟩ "Ozempic" false).items.map
      (fun i => i.code)) = ["POTENTIAL_DUPLICATE_PATIENT"] ∧
    ("POTENTIAL_DUPLICATE_PATIENT" : String) ≠ "DUPLICATE_PATIENT_SUSPECTED" := by
  decide

/-- C7 amended: in the same scenario the evaluation yields exactly one
warning finding, its code is `POTENTIAL_DUPLICATE_PATIENT`, and the
result's reusable Patient is null. -/
theorem c7_amended_scenario :
    check_all_duplicates dbJohn ⟨2026, 10, 12⟩ "1234567890" "Dr. Smith"
        "654321" "John" "Smith" ⟨1985, 3, 15⟩ "Ozempic" false =
      { items := [potentialDupItem], reusable_provider := none,
        reusable_patient := none } ∧
    potentialDupItem.level = Level.warning ∧
    potentialDupItem.code = ErrorCodes.POTENTIAL_DUPLICATE_PATIENT := by
  decide

/-- C8 counterexample: the rate limiter's rejection message is not a
single fixed string: a minute-limit rejection and a day-limit rejection
carry two different messages. -/
theorem c8_counterexample :
    check_rate_limit ⟨15, 0⟩ =
      RateDecision.rejected "请求过于频繁，请稍等片刻再试" ∧
    check_rate_limit ⟨0, 1500⟩ =
      RateDecision.rejected "今日请求配额已用完，请明天再试" ∧
    ("请求过于频繁，请稍等片刻再试" : String) ≠ "今日请求配额已用完，请明天再试" := by
  decide

/-- C2: with the rate limiter admitting and a parsed date of birth, the
admission gate decides as claimed: any error-level finding blocks the
request with the full finding list returned and nothing created or
enqueued (so an error takes precedence over any warnings); warnings
without errors produce a requires-confirmation response carrying the
warnings, again creating and enqueueing nothing; zero findings create one
CarePlan row in status `pending` and enqueue its id. -/
theorem c2_admission_gate (st : ServerState) (today : DateD) (req : Request)
    (dob : DateD) (v : ValidationResult)
    (hmin : st.rate.minute_count < 15) (hday : st.rate.day_count < 1500)
    (hdob : req.patient_dob = some dob)
    (hv : v = check_all_duplicates st.db today req.referring_provider_npi
      req.referring_provider req.patient_mrn req.patient_first_name
      req.patient_last_name dob req.medication_name
      (req.confirm_raw == "true")) :
    (v.has_errors = true →
      (postIndex st today req).1 = PostOutcome.validationFailure v ∧
      (postIndex st today req).2.careplans = st.careplans ∧
      (postIndex st today req).2.queue = st.queue ∧
      (postIndex st today req).2.db = st.db) ∧
    (v.has_errors = false → v.has_warnings = true →
      (postIndex st today req).1 = PostOutcome.requiresConfirmation v.warnings ∧
      (postIndex st today req).2.careplans = st.careplans ∧
      (postIndex st today req).2.queue = st.queue ∧
      (postIndex st today req).2.db = st.db) ∧
    (v.is_clean = true →
      (postIndex st today req).1 = PostOutcome.success st.next_id ∧
      (postIndex st today req).2.careplans =
        st.careplans ++ [newCareplan st.next_id req] ∧
      (newCareplan st.next_id req).status = "pending" ∧
      (postIndex st today req).2.queue = st.queue ++ [st.next_id]) := by
  subst hv
  rw [postIndex_admitted st today req dob hmin hday hdob]
  refine ⟨?_, ?_, ?_⟩
  · intro he
    simp [he]
  · intro he hw
    simp [he, hw]
  · intro hc
    obtain ⟨he, hw⟩ := is_clean_no_findings _ hc
    simp [he, hw, newCareplan]

/-- C2 witness: at the empty store the fresh request evaluates clean and
is admitted: careplan 0 is created in status `pending` and its id is
enqueued. -/
theorem c2_witness :
    (postIndex stEmpty ⟨2026, 10, 12⟩ reqFresh).1 = PostOutcome.success 0 ∧
    (postIndex stEmpty ⟨2026, 10, 12⟩ reqFresh).2.careplans =
      [newCareplan 0 reqFresh] ∧
    (newCareplan 0 reqFresh).status = "pending" ∧
    (postIndex stEmpty ⟨2026, 10, 12⟩ reqFresh).2.queue = [0] := by
  have h := (c2_admission_gate stEmpty ⟨2026, 10, 12⟩ reqFresh ⟨1985, 3, 15⟩ _
    (by decide) (by decide) rfl rfl).2.2 (by decide)
  simpa using h

/-- C3: the provider check adds no finding and resolves no reusable
provider when no Provider with the npi exists; resolves the stored
Provider as reusable with no finding when its name matches
case-insensitively; otherwise appends exactly one error finding with code
`DUPLICATE_NPI_MISMATCH` and leaves the reusable provider unset — and the
value of confirm affects neither the resolved reusable provider nor the
`DUPLICATE_NPI_MISMATCH` findings of a full evaluation. -/
theorem c3_provider_check (db : DB) (today : DateD)
    (npi name mrn first_name last_name : String) (dob : DateD)
    (medication_name : String) (r : ValidationResult) :
    (findProviderByNpi db npi = none → check_provider r db npi name = r) ∧
    (∀ p, findProviderByNpi db npi = some p →
      (strLower p.name == strLower name) = true →
      check_provider r db npi name = { r with reusable_provider := some p }) ∧
    (∀ p, findProviderByNpi db npi = some p →
      (strLower p.name == strLower name) = false →
      (check_provider r db npi name).items = r.items ++ [npiMismatchItem] ∧
      npiMismatchItem.level = Level.error ∧
      npiMismatchItem.code = ErrorCodes.DUPLICATE_NPI_MISMATCH ∧
      (check_provider r db npi name).reusable_provider =
        r.reusable_provider) ∧
    (∀ c₁ c₂ : Bool,
      (check_all_duplicates db today npi name mrn first_name last_name dob
        medication_name c₁).reusable_provider =
      (check_all_duplicates db today npi name mrn first_name last_name dob
        medication_name c₂).reusable_provider ∧
      (check_all_duplicates db today npi name mrn first_name last_name dob
        medication_name c₁).items.filter
          (fun i => i.code == ErrorCodes.DUPLICATE_NPI_MISMATCH) =
      (check_all_duplicates db today npi name mrn first_name last_name dob
        medication_name c₂).items.filter
          (fun i => i.code == ErrorCodes.DUPLICATE_NPI_MISMATCH)) := by
  refine ⟨?_, ?_, ?_, ?_⟩
  · intro h
    unfold check_provider
    rw [h]
  · intro p hp hn
    unfold check_provider
    rw [hp]
    simp [hn]
  · intro p hp hn
    unfold check_provider
    rw [hp]
    simp [hn, ValidationResult.add_error, npiMismatchItem]
  · intro c₁ c₂
    rw [check_all_duplicates_eq, check_all_duplicates_eq]
    refine ⟨rfl, ?_⟩
    simp only [evalFindings, List.filter_append]
    cases h : findPatientByMrn db mrn with
    | none => rfl
    | some p =>
      rw [filter_orderFindings_eq_nil db today p medication_name c₁ _
          (by decide) (by decide),
        filter_orderFindings_eq_nil db today p medication_name c₂ _
          (by decide) (by decide)]

/-- C3 witness: with Provider(npi 1234567890, Dr. Smith) stored,
submitting the same npi with name Dr. Jones appends exactly the
`DUPLICATE_NPI_MISMATCH` error. -/
theorem c3_witness :
    (check_provider {} ⟨[⟨1, "Dr. Smith", "1234567890"⟩], [], []⟩
      "1234567890" "Dr. Jones").items = [npiMismatchItem] ∧
    npiMismatchItem.code = ErrorCodes.DUPLICATE_NPI_MISMATCH := by
  have h := (c3_provider_check ⟨[⟨1, "Dr. Smith", "1234567890"⟩], [], []⟩
    ⟨2026, 10, 12⟩ "1234567890" "Dr. Jones" "123456" "John" "Smith"
    ⟨1985, 3, 15⟩ "Ozempic" {}).2.2.1 ⟨1, "Dr. Smith", "1234567890"⟩
    (by decide) (by decide)
  exact ⟨h.1, h.2.2.1⟩

/-- C6: when the mrn lookup finds an existing Patient, a full match of
case-insensitive first/last name and date of birth resolves it as
reusable with no finding; any mismatch (in whichever field) appends
exactly one `PATIENT_INFO_MISMATCH` warning while still resolving the
Patient as reusable — and neither the resolved reusable patient nor the
`PATIENT_INFO_MISMATCH` findings of a full evaluation depend on
confirm. -/
theorem c6_patient_mrn_match (db : DB) (today : DateD)
    (npi pname mrn first_name last_name : String) (dob : DateD)
    (med : String) (r : ValidationResult) (existing : Patient)
    (hfind : findPatientByMrn db mrn = some existing) :
    (((strLower existing.first_name == strLower first_name &&
       strLower existing.last_name == strLower last_name) &&
       existing.date_of_birth == dob) = true →
      check_patient r db mrn first_name last_name dob =
        { r with reusable_patient := some existing }) ∧
    (((strLower existing.first_name == strLower first_name &&
       strLower existing.last_name == strLower last_name) &&
       existing.date_of_birth == dob) = false →
      (check_patient r db mrn first_name last_name dob).items =
        r.items ++ [patientMismatchItem] ∧
      patientMismatchItem.level = Level.warning ∧
      patientMismatchItem.code = ErrorCodes.PATIENT_INFO_MISMATCH ∧
      (check_patient r db mrn first_name last_name dob).reusable_patient =
        some existing) ∧
    (∀ c₁ c₂ : Bool,
      (check_all_duplicates db today npi pname mrn first_name last_name dob
        med c₁).reusable_patient = some existing ∧
      (check_all_duplicates db today npi pname mrn first_name last_name dob
        med c₁).items.filter
          (fun i => i.code == ErrorCodes.PATIENT_INFO_MISMATCH) =
      (check_all_duplicates db today npi pname mrn first_name last_name dob
        med c₂).items.filter
          (fun i => i.code == ErrorCodes.PATIENT_INFO_MISMATCH)) := by
  refine ⟨?_, ?_, ?_⟩
  · intro hm
    unfold check_patient
    rw [hfind]
    simp [hm]
  · intro hm
    unfold check_patient
    rw [hfind]
    simp [hm, ValidationResult.add_warning, patientMismatchItem]
  · intro c₁ c₂
    rw [check_all_duplicates_eq, check_all_duplicates_eq]
    refine ⟨hfind, ?_⟩
    simp only [evalFindings, List.filter_append]
    rw [hfind]
    rw [filter_orderFindings_eq_nil db today existing med c₁ _
        (by decide) (by decide),
      filter_orderFindings_eq_nil db today existing med c₂ _
        (by decide) (by decide)]

/-- C6 witness: with John Smith stored under mrn 123456, submitting the
same mrn with first name Jane appends exactly the
`PATIENT_INFO_MISMATCH` warning and still resolves the stored Patient as
reusable. -/
theorem c6_witness :
    (check_patient {} dbJohn "123456" "Jane" "Smith" ⟨1985, 3, 15⟩).items =
      [patientMismatchItem] ∧
    (check_patient {} dbJohn "123456" "Jane" "Smith"
      ⟨1985, 3, 15⟩).reusable_patient =
      some ⟨1, "John", "Smith", "123456", ⟨1985, 3, 15⟩⟩ := by
  have h := (c6_patient_mrn_match dbJohn ⟨2026, 10, 12⟩ "1234567890"
    "Dr. Smith" "123456" "Jane" "Smith" ⟨1985, 3, 15⟩ "Ozempic" {}
    ⟨1, "John", "Smith", "123456", ⟨1985, 3, 15⟩⟩ (by decide)).2.1 (by decide)
  exact ⟨h.1, h.2.2.2⟩

/-- C5: when a same-day Order for the patient and case-insensitively
equal medication exists, the order check appends exactly one
`DUPLICATE_ORDER_SAME_DAY` error for every value of confirm; with no
same-day Order but some historical Order, the `EXISTING_MEDICATION_ORDER`
warning is appended exactly when confirm is false; with no matching Order
nothing is added — and the order check contributes to a full evaluation
only when the mrn lookup resolved a reusable Patient. -/
theorem c5_order_check (db : DB) (today : DateD) (patient : Patient)
    (medication_name : String) (r : ValidationResult) :
    (∀ confirm o, findSameDayOrder db patient medication_name today = some o →
      (check_order r db today patient medication_name confirm).items =
        r.items ++ [sameDayItem] ∧
      sameDayItem.level = Level.error ∧
      sameDayItem.code = ErrorCodes.DUPLICATE_ORDER_SAME_DAY) ∧
    (findSameDayOrder db patient medication_name today = none →
      hasPreviousOrder db patient medication_name = true →
      (check_order r db today patient medication_name false).items =
        r.items ++ [prevOrderItem] ∧
      prevOrderItem.level = Level.warning ∧
      prevOrderItem.code = ErrorCodes.EXISTING_MEDICATION_ORDER ∧
      check_order r db today patient medication_name true = r) ∧
    (findSameDayOrder db patient medication_name today = none →
      hasPreviousOrder db patient medication_name = false →
      ∀ confirm, check_order r db today patient medication_name confirm = r) ∧
    (∀ npi pname mrn first_name last_name dob confirm,
      findPatientByMrn db mrn = none →
      (check_all_duplicates db today npi pname mrn first_name last_name dob
        medication_name confirm).items =
        providerFindings db npi pname ++
          patientFindings db mrn first_name last_name dob) := by
  refine ⟨?_, ?_, ?_, ?_⟩
  · intro confirm o h
    unfold check_order
    rw [h]
    simp [ValidationResult.add_error, sameDayItem]
  · intro hs hp
    unfold check_order
    rw [hs]
    simp [hp, ValidationResult.add_warning, prevOrderItem]
  · intro hs hp confirm
    unfold check_order
    rw [hs]
    cases confirm <;> simp [hp]
  · intro npi pname mrn first_name last_name dob confirm hfind
    rw [check_all_duplicates_eq]
    simp only [evalFindings, hfind]
    simp

/-- C5 witness: with John Smith and a prior-day Ozempic order stored, the
order check without confirm appends exactly the
`EXISTING_MEDICATION_ORDER` warning, and with confirm it adds nothing. -/
theorem c5_witness :
    (check_order {} dbOrderHist ⟨2026, 10, 12⟩
      ⟨1, "John", "Smith", "123456", ⟨1985, 3, 15⟩⟩ "Ozempic" false).items =
      [prevOrderItem] ∧
    check_order {} dbOrderHist ⟨2026, 10, 12⟩
      ⟨1, "John", "Smith", "123456", ⟨1985, 3, 15⟩⟩ "Ozempic" true = {} := by
  have h := (c5_order_check dbOrderHist ⟨2026, 10, 12⟩
    ⟨1, "John", "Smith", "123456", ⟨1985, 3, 15⟩⟩ "Ozempic" {}).2.1
    (by decide) (by decide)
  exact ⟨h.1, h.2.2.2⟩

/-- C4 counterexample: with John Smith stored under mrn 123456, a request
submitting that mrn with first name Jane evaluates (confirm=false) to
warnings only, yet resubmitting the identical request with confirm=true is
answered with requires-confirmation again — the `PATIENT_INFO_MISMATCH`
warning is re-emitted and admission does not proceed. -/
theorem c4_counterexample :
    (check_all_duplicates stJane.db ⟨2026, 10, 12⟩ "1234567890" "Dr. Smith"
      "123456" "Jane" "Smith" ⟨1985, 3, 15⟩ "Ozempic" false).has_errors =
      false ∧
    (check_all_duplicates stJane.db ⟨2026, 10, 12⟩ "1234567890" "Dr. Smith"
      "123456" "Jane" "Smith" ⟨1985, 3, 15⟩ "Ozempic" false).has_warnings =
      true ∧
    (postIndex stJane ⟨2026, 10, 12⟩ (reqJane "true")).1 =
      PostOutcome.requiresConfirmation [patientMismatchItem] ∧
    (postIndex stJane ⟨2026, 10, 12⟩ (reqJane "true")).2.careplans = [] := by
  decide

/-- C4 amended: resubmission with confirm=true proceeds to admission
exactly for the confirm-suppressable warnings: if the confirm=false
evaluation produced only `EXISTING_MEDICATION_ORDER` (order-history)
findings, then the identical request with confirm=true is admitted — a
CarePlan row is created and its id enqueued. (Patient-level warnings are
re-emitted regardless of confirm, as the counterexample shows.) -/
theorem c4_amended_confirm_proceeds (st : ServerState) (today : DateD)
    (req : Request) (dob : DateD) (v : ValidationResult)
    (hmin : st.rate.minute_count < 15) (hday : st.rate.day_count < 1500)
    (hdob : req.patient_dob = some dob)
    (hconfirm : req.confirm_raw = "true")
    (hv : v = check_all_duplicates st.db today req.referring_provider_npi
      req.referring_provider req.patient_mrn req.patient_first_name
      req.patient_last_name dob req.medication_name false)
    (hcode : ∀ i ∈ v.items, i.code = ErrorCodes.EXISTING_MEDICATION_ORDER) :
    (postIndex st today req).1 = PostOutcome.success st.next_id ∧
    (postIndex st today req).2.careplans =
      st.careplans ++ [newCareplan st.next_id req] ∧
    (postIndex st today req).2.queue = st.queue ++ [st.next_id] := by
  subst hv
  rw [check_all_duplicates_eq] at hcode
  simp only [evalFindings] at hcode
  -- the provider check contributed nothing
  have hpf : providerFindings st.db req.referring_provider_npi
      req.referring_provider = [] := by
    rcases providerFindings_cases st.db req.referring_provider_npi
        req.referring_provider with h | h
    · exact h
    · exfalso
      have hm : npiMismatchItem ∈ providerFindings st.db
          req.referring_provider_npi req.referring_provider := by
        rw [h]; exact List.mem_singleton.mpr rfl
      have := hcode npiMismatchItem (by
        refine List.mem_append_left _ (List.mem_append_left _ hm))
      revert this
      decide
  -- the patient check contributed nothing
  have hpat : patientFindings st.db req.patient_mrn req.patient_first_name
      req.patient_last_name dob = [] := by
    rcases patientFindings_cases st.db req.patient_mrn req.patient_first_name
        req.patient_last_name dob with h | h | h
    · exact h
    · exfalso
      have hm : patientMismatchItem ∈ patientFindings st.db req.patient_mrn
          req.patient_first_name req.patient_last_name dob := by
        rw [h]; exact List.mem_singleton.mpr rfl
      have := hcode patientMismatchItem (by
        refine List.mem_append_left _ (List.mem_append_right _ hm))
      revert this
      decide
    · exfalso
      have hm : potentialDupItem ∈ patientFindings st.db req.patient_mrn
          req.patient_first_name req.patient_last_name dob := by
        rw [h]; exact List.mem_singleton.mpr rfl
      have := hcode potentialDupItem (by
        refine List.mem_append_left _ (List.mem_append_right _ hm))
      revert this
      decide
  -- the confirm=true evaluation is clean
  have hclean : (check_all_duplicates st.db today req.referring_provider_npi
      req.referring_provider req.patient_mrn req.patient_first_name
      req.patient_last_name dob req.medication_name true).is_clean = true := by
    rw [check_all_duplicates_eq]
    simp only [evalFindings, ValidationResult.is_clean]
    cases hfp : findPatientByMrn st.db req.patient_mrn with
    | none => simp [hpf, hpat]
    | some p =>
      cases hsd : findSameDayOrder st.db p req.medication_name today with
      | some o =>
        exfalso
        have hm : sameDayItem ∈ orderFindings st.db today p
            req.medication_name false :=
          (orderFindings_of_sameDay st.db today p req.medication_name false
            o hsd) ▸ List.mem_singleton.mpr rfl
        have := hcode sameDayItem (by
          refine List.mem_append_right _ ?_
          rw [hfp]
          exact hm)
        revert this
        decide
      | none =>
        simp [hpf, hpat,
          orderFindings_of_confirm st.db today p req.medication_name hsd]
  have hc : (req.confirm_raw == "true") = true := by
    rw [hconfirm]
    decide
  rw [postIndex_admitted st today req dob hmin hday hdob]
  obtain ⟨he, hw⟩ := is_clean_no_findings _ hclean
  rw [hc] at *
  simp [he, hw]

/-- C4 witness: John Smith with a prior-day Ozempic order; the fully
matching request carrying confirm=true is admitted as careplan 0. -/
theorem c4_witness :
    (postIndex stOrderHist ⟨2026, 10, 12⟩ reqJohnConfirm).1 =
      PostOutcome.success 0 ∧
    (postIndex stOrderHist ⟨2026, 10, 12⟩ reqJohnConfirm).2.queue = [0] := by
  have h := c4_amended_confirm_proceeds stOrderHist ⟨2026, 10, 12⟩
    reqJohnConfirm ⟨1985, 3, 15⟩ _ (by decide) (by decide) rfl rfl rfl
    (by decide)
  exact ⟨h.1, by simpa using h.2.2⟩

/-- C8 amended: the rate limiter rejects exactly when the current-minute
counter is at least 15 or the current-day counter is at least 1500; a
rejected request is answered rate-limited with the whole server state
untouched (it never reaches the rule engine); on admission both counters
are written incremented with 60-second and 86400-second expiry; and the
rejection message is one of two fixed digit-free strings (one per
exceeded ceiling), revealing neither thresholds nor counts. -/
theorem c8_rate_limiter (st : ServerState) (today : DateD) (req : Request) :
    ((st.rate.minute_count ≥ 15 ∨ st.rate.day_count ≥ 1500) ↔
      ∃ msg, check_rate_limit st.rate = RateDecision.rejected msg) ∧
    (∀ msg, check_rate_limit st.rate = RateDecision.rejected msg →
      (postIndex st today req).1 = PostOutcome.rateLimited msg ∧
      (postIndex st today req).2 = st ∧
      (msg = "请求过于频繁，请稍等片刻再试" ∨
        msg = "今日请求配额已用完，请明天再试") ∧
      msg.data.all (fun ch => !ch.isDigit) = true) ∧
    (∀ mw dw, check_rate_limit st.rate = RateDecision.admitted mw dw →
      st.rate.minute_count < 15 ∧ st.rate.day_count < 1500 ∧
      mw.value = st.rate.minute_count + 1 ∧ mw.timeout = 60 ∧
      dw.value = st.rate.day_count + 1 ∧ dw.timeout = 86400 ∧
      (postIndex st today req).2.rate =
        ⟨st.rate.minute_count + 1, st.rate.day_count + 1⟩) := by
  refine ⟨?_, ?_, ?_⟩
  · constructor
    · intro h
      unfold check_rate_limit
      by_cases h1 : st.rate.minute_count ≥ 15
      · exact ⟨_, by rw [if_pos h1]⟩
      · have h2 : st.rate.day_count ≥ 1500 := by omega
        exact ⟨_, by rw [if_neg h1, if_pos h2]⟩
    · rintro ⟨msg, h⟩
      by_contra hc
      push_neg at hc
      unfold check_rate_limit at h
      rw [if_neg (by omega : ¬ st.rate.minute_count ≥ 15),
        if_neg (by omega : ¬ st.rate.day_count ≥ 1500)] at h
      exact absurd h (by simp)
  · intro msg h
    have houtcome : (postIndex st today req).1 = PostOutcome.rateLimited msg ∧
        (postIndex st today req).2 = st := by
      unfold postIndex
      rw [h]
      exact ⟨rfl, rfl⟩
    refine ⟨houtcome.1, houtcome.2, ?_⟩
    unfold check_rate_limit at h
    by_cases h1 : st.rate.minute_count ≥ 15
    · rw [if_pos h1] at h
      cases h
      exact ⟨Or.inl rfl, by decide⟩
    · rw [if_neg h1] at h
      by_cases h2 : st.rate.day_count ≥ 1500
      · rw [if_pos h2] at h
        cases h
        exact ⟨Or.inr rfl, by decide⟩
      · rw [if_neg h2] at h
        exact absurd h (by simp)
  · intro mw dw h
    have h1 : ¬ st.rate.minute_count ≥ 15 := by
      intro h1
      unfold check_rate_limit at h
      rw [if_pos h1] at h
      exact absurd h (by simp)
    have h2 : ¬ st.rate.day_count ≥ 1500 := by
      intro h2
      unfold check_rate_limit at h
      rw [if_neg h1, if_pos h2] at h
      exact absurd h (by simp)
    unfold check_rate_limit at h
    rw [if_neg h1, if_neg h2] at h
    cases h
    refine ⟨by omega, by omega, rfl, rfl, rfl, rfl, ?_⟩
    unfold postIndex check_rate_limit
    rw [if_neg h1, if_neg h2]
    cases hdob : req.patient_dob with
    | none => rfl
    | some dob =>
      by_cases he : (check_all_duplicates st.db today
          req.referring_provider_npi req.referring_provider req.patient_mrn
          req.patient_first_name req.patient_last_name dob
          req.medication_name (req.confirm_raw == "true")).has_errors
      · simp [he]
      · by_cases hw : (check_all_duplicates st.db today
            req.referring_provider_npi req.referring_provider req.patient_mrn
            req.patient_first_name req.patient_last_name dob
            req.medication_name (req.confirm_raw == "true")).has_warnings <;>
          simp [he, hw]

/-- C8 witness: with the minute counter at its ceiling, the fresh request
is answered rate-limited with the minute message and nothing changes. -/
theorem c8_witness :
    (postIndex stRateLimited ⟨2026, 10, 12⟩ reqFresh).1 =
      PostOutcome.rateLimited "请求过于频繁，请稍等片刻再试" ∧
    (postIndex stRateLimited ⟨2026, 10, 12⟩ reqFresh).2 = stRateLimited := by
  have h := (c8_rate_limiter stRateLimited ⟨2026, 10, 12⟩ reqFresh).2.1
    "请求过于频繁，请稍等片刻再试" (by decide)
  exact ⟨h.1, h.2.1⟩

/-- C9: over every store and every input, each finding's message produced
by a duplicate evaluation belongs to the fixed five-element vocabulary of
constant strings — no message ever embeds a stored record's name,
identifier or key. -/
theorem c9_fixed_message_set (db : DB) (today : DateD)
    (npi pname mrn first_name last_name : String) (dob : DateD)
    (med : String) (confirm : Bool) :
    ∀ i ∈ (check_all_duplicates db today npi pname mrn first_name last_name
      dob med confirm).items, i.message ∈ fixedMessages := by
  rw [check_all_duplicates_eq]
  intro i hi
  simp only [evalFindings, List.append_assoc, List.mem_append] at hi
  rcases hi with hi | hi | hi
  · have := providerFindings_mem db npi pname i hi
    subst this
    decide
  · rcases patientFindings_mem db mrn first_name last_name dob i hi with
      h | h <;> (subst h; decide)
  · cases hfp : findPatientByMrn db mrn with
    | none =>
      rw [hfp] at hi
      simp at hi
    | some p =>
      rw [hfp] at hi
      rcases orderFindings_mem db today p med confirm i hi with h | h <;>
        (subst h; decide)

/-- C9 witness: the message of the finding produced in the duplicate-mrn
scenario is drawn from the fixed vocabulary. -/
theorem c9_witness : potentialDupItem.message ∈ fixedMessages :=
  c9_fixed_message_set dbJohn ⟨2026, 10, 12⟩ "1234567890" "Dr. Smith"
    "654321" "John" "Smith" ⟨1985, 3, 15⟩ "Ozempic" false potentialDupItem
    (by decide)

/-- C10: when the rate limiter admits but the submitted date of birth does
not parse as YYYY-MM-DD, the request fails validation with exactly one
error finding of code `INTERNAL_ERROR`, the duplicate checks never run
(the outcome is independent of the store) and no entity, CarePlan or
queue entry is created. -/
theorem c10_bad_dob (st : ServerState) (today : DateD) (req : Request)
    (hmin : st.rate.minute_count < 15) (hday : st.rate.day_count < 1500)
    (hdob : req.patient_dob = none) :
    (postIndex st today req).1 = PostOutcome.validationFailure dobFormatError ∧
    dobFormatError.items =
      [⟨Level.error, ErrorCodes.INTERNAL_ERROR,
        "出生日期格式错误，请使用 YYYY-MM-DD 格式"⟩] ∧
    (postIndex st today req).2.db = st.db ∧
    (postIndex st today req).2.careplans = st.careplans ∧
    (postIndex st today req).2.queue = st.queue ∧
    (∀ db' : DB, (postIndex { st with db := db' } today req).1 =
      PostOutcome.validationFailure dobFormatError) := by
  have h1 : ¬ (st.rate.minute_count ≥ 15) := by omega
  have h2 : ¬ (st.rate.day_count ≥ 1500) := by omega
  unfold postIndex check_rate_limit
  simp [if_neg h1, if_neg h2, hdob, dobFormatError, ValidationResult.add_error]

/-- C10 witness: the request with the unparseable date 03/15/1985 fails
validation with the single `INTERNAL_ERROR` finding and creates
nothing. -/
theorem c10_witness :
    (postIndex stEmpty ⟨2026, 10, 12⟩ reqBadDob).1 =
      PostOutcome.validationFailure dobFormatError ∧
    (postIndex stEmpty ⟨2026, 10, 12⟩ reqBadDob).2.careplans = [] ∧
    (postIndex stEmpty ⟨2026, 10, 12⟩ reqBadDob).2.queue = [] := by
  have h := c10_bad_dob stEmpty ⟨2026, 10, 12⟩ reqBadDob (by decide)
    (by decide) rfl
  exact ⟨h.1, h.2.2.2.1, h.2.2.2.2.1⟩

end CarePlanSpec
